import Mathlib

/-!
Verification development for the tetr.js client session layer.

The definitions below are a shallow embedding of the TypeScript sources:
`src/index.ts` (EventEmitter, Client, ClientUser, Room) and an unnamed
source file holding an alternate ClientUser implementation (here V2).
Socket writes are modelled as an append-only log of outbound packets.
-/

namespace TetrJs

/-- JS runtime values, used for packet payloads. -/
inductive JSValue where
  | null
  | undef
  | bool (b : Bool)
  | num (n : Int)
  | str (s : String)
  | obj (fields : List (String × JSValue))
  | arr (elems : List JSValue)

/-- JS truthiness: false, 0, empty string, null and undefined are falsy;
objects and arrays are always truthy. -/
def JSValue.truthy : JSValue → Bool
  | .null => false
  | .undef => false
  | .bool b => b
  | .num n => n != 0
  | .str s => s != ""
  | .obj _ => true
  | .arr _ => true

/-- Truthiness of an optional string, as tested by `if (this.room.id)`:
undefined is falsy, a string is truthy iff nonempty. -/
def optStrTruthy : Option String → Bool
  | none => false
  | some s => s != ""

/-- One outbound wire packet: optional numeric message id, command name,
payload. Mirrors the object literals passed to `ws.send` in `index.ts`. -/
structure Packet where
  id : Option Nat
  command : String
  data : JSValue

/-- Modelled from the spec: the WebsocketManager (Connection Manager) is
imported by `index.ts` but its source is not under src/. Per the spec it
owns the socket and the numeric message-id counter and `send` serializes
a packet and writes it to the socket; the write is modelled as appending
the packet to a sent-packet log. -/
structure WebsocketManager where
  messageID : Nat
  sent : List Packet

/-- Modelled from the spec: `send` writes the packet to the socket,
recorded here by appending to the log. -/
def WebsocketManager.send (ws : WebsocketManager) (p : Packet) : WebsocketManager :=
  { ws with sent := ws.sent ++ [p] }

/-- Handling configuration, from the `Handling` interface in `index.ts`. -/
structure Handling where
  arr : String
  das : String
  sdf : String
  safelock : Bool

/-- Room-membership state of the `Room` class: `id?: string`. -/
structure Room where
  id : Option String

/-- The combined mutable state of a `Client` from `index.ts`: handling
configuration, the token (unset until login), the `Room` object (which
aliases the same WebsocketManager as the client), and the socket. -/
structure Client where
  handling : Handling
  token : Option String
  room : Room
  ws : WebsocketManager

/-- Default value of the `handling` constructor parameter,
`index.ts` line 75. -/
def defaultHandling : Handling :=
  { arr := "1", das := "1", sdf := "5", safelock := true }

/-- The `Client` constructor with the handling argument omitted: handling
defaults, token not yet assigned, a fresh `Room` with unset id, a fresh
WebsocketManager. -/
def Client.new : Client :=
  { handling := defaultHandling
    token := none
    room := { id := none }
    ws := { messageID := 0, sent := [] } }

/-- The `Client` constructor with an explicit handling argument. -/
def Client.newWith (handling : Handling) : Client :=
  { handling := handling
    token := none
    room := { id := none }
    ws := { messageID := 0, sent := [] } }

/-- `Client.leaveRoom` from `index.ts` lines 110 to 114: send a
`leaveroom` packet carrying the message id, then set `room.id` to
undefined. -/
def Client.leaveRoom (c : Client) : Client :=
  let c1 := { c with ws := c.ws.send { id := some c.ws.messageID, command := "leaveroom", data := .bool false } }
  { c1 with room := { c1.room with id := none } }

/-- `Client.joinRoom` from `index.ts` lines 98 to 106: if `room.id` is
truthy, call `leaveRoom` first; then send a `joinroom` packet carrying
the message id and the room string; then set `room.id` to the room. -/
def Client.joinRoom (c : Client) (room : String) : Client :=
  let c1 := if optStrTruthy c.room.id then c.leaveRoom else c
  let c2 := { c1 with ws := c1.ws.send { id := some c1.ws.messageID, command := "joinroom", data := .str room } }
  { c2 with room := { c2.room with id := some room } }

/-- Presence payload of `setPresence`: a status string and a detail
string (the TypeScript type is a union of string literals and string). -/
structure Presence where
  status : String
  detail : String

/-- The presence payload as the JS object literal sent on the wire. -/
def Presence.toJS (p : Presence) : JSValue :=
  .obj [("status", .str p.status), ("detail", .str p.detail)]

/-- `ClientUser.message` from `index.ts` lines 136 to 141: send a
`social.dm` packet, with no id, carrying recipient and msg. The
ClientUser holds the same WebsocketManager as the client, so the
operation is stated on the client state. -/
def ClientUser.message (c : Client) (user msg : String) : Client :=
  { c with ws := c.ws.send { id := none, command := "social.dm", data := .obj [("recipient", .str user), ("msg", .str msg)] } }

/-- `ClientUser.setPresence` from `index.ts` lines 143 to 167: send a
`social.presence` packet, with no id, carrying the options object. -/
def ClientUser.setPresence (c : Client) (options : Presence) : Client :=
  { c with ws := c.ws.send { id := none, command := "social.presence", data := options.toJS } }

/-- `ClientUser.invite` from `index.ts` lines 169 to 171: send a
`social.invite` packet, with no id, carrying the user id string. -/
def ClientUser.invite (c : Client) (user : String) : Client :=
  { c with ws := c.ws.send { id := none, command := "social.invite", data := .str user } }

/-- `Room.message` from `index.ts` lines 186 to 188: send a `chat` packet
carrying the message id and the message string. There is no check of
`room.id` before the send. -/
def Room.message (c : Client) (msg : String) : Client :=
  { c with ws := c.ws.send { id := some c.ws.messageID, command := "chat", data := .str msg } }

/-- `Room.selfMode` from `index.ts` lines 194 to 200: send a
`switchbracket` packet carrying the message id and the mode string. -/
def Room.selfMode (c : Client) (mode : String) : Client :=
  { c with ws := c.ws.send { id := some c.ws.messageID, command := "switchbracket", data := .str mode } }

/-- `Room.setMode` from `index.ts` lines 206 to 212: send a
`switchbrackethost` packet carrying the message id, the uid and the
bracket. -/
def Room.setMode (c : Client) (user mode : String) : Client :=
  { c with ws := c.ws.send { id := some c.ws.messageID, command := "switchbrackethost", data := .obj [("uid", .str user), ("bracket", .str mode)] } }

/-- One entry of the `setConfig` options array: `{index, value}`. -/
structure ConfigEntry where
  index : String
  value : JSValue

/-- `Room.setConfig` from `index.ts` lines 219 to 225: send an
`updateconfig` packet carrying the message id and the options array. -/
def Room.setConfig (c : Client) (options : List ConfigEntry) : Client :=
  { c with ws := c.ws.send { id := some c.ws.messageID, command := "updateconfig", data := .arr (options.map fun o => .obj [("index", .str o.index), ("value", o.value)]) } }

/-- One registration stored by the EventEmitter: the event name and the
callback. Callbacks are identified by an abstract number, since only their
identity and call order matter here. -/
structure EventEmitterEvent where
  event : String
  func : Nat

/-- `EventEmitter.on` from `index.ts` lines 32 to 37: push the
registration onto the events array. -/
def EventEmitter.on (events : List EventEmitterEvent) (event : String) (func : Nat) :
    List EventEmitterEvent :=
  events ++ [{ event := event, func := func }]

/-- `EventEmitter.emit` from `index.ts` lines 39 to 46: filter the
registrations whose event name equals the emitted name, then call each
in order; if `args` is truthy the callback receives `args`, otherwise it
is called with no argument. The result is the list of performed calls,
each a pair of the callback and the argument it received (`none` for a
zero-argument call). -/
def EventEmitter.emit (events : List EventEmitterEvent) (event : String)
    (args : Option JSValue) : List (Nat × Option JSValue) :=
  let array := events.filter fun x => x.event == event
  array.map fun element =>
    match args with
    | some a => if a.truthy then (element.func, some a) else (element.func, none)
    | none => (element.func, none)

/-- An events array built by a sequence of `on` registrations, starting
from the empty array. -/
def EventEmitter.ofRegs (regs : List (String × Nat)) : List EventEmitterEvent :=
  regs.foldl (fun evs r => EventEmitter.on evs r.1 r.2) []

/-- Modelled from the spec: the socket object of the alternate (V2)
ClientUser implementation; its source is not under src/. It exposes a
numeric `clientId` used as the outbound message id and a `send_packet`
that writes one packet, modelled as appending to a sent-packet log. -/
structure WS2 where
  clientId : Nat
  sent : List Packet

/-- Modelled from the spec: `send_packet` writes the packet to the
socket, recorded by appending to the log. -/
def WS2.send_packet (ws : WS2) (p : Packet) : WS2 :=
  { ws with sent := ws.sent ++ [p] }

/-- State of the alternate ClientUser implementation (the unnamed source
file): its handling, an optional reference to the Room it is in
(represented by the room id), and the socket of its client. -/
structure ClientUserV2 where
  handling : Handling
  room : Option String
  ws : WS2

/-- `ClientUser.join` from the unnamed source file, lines 34 to 40: send
a `joinroom` packet carrying the client id and the room string. No local
field is assigned. -/
def ClientUserV2.join (u : ClientUserV2) (room : String) : ClientUserV2 :=
  { u with ws := u.ws.send_packet { id := some u.ws.clientId, command := "joinroom", data := .str room } }

/-- `ClientUser.leave` from the unnamed source file, lines 46 to 52: send
a `leaveroom` packet carrying the client id and the data `false`. No
local field is assigned. -/
def ClientUserV2.leave (u : ClientUserV2) : ClientUserV2 :=
  { u with ws := u.ws.send_packet { id := some u.ws.clientId, command := "leaveroom", data := .bool false } }

/-- `ClientUser.setPresence` from the unnamed source file, lines 59 to
61: send a `social.presence` packet, with no id, carrying the presence
data. No local field is assigned. -/
def ClientUserV2.setPresence (u : ClientUserV2) (data : Presence) : ClientUserV2 :=
  { u with ws := u.ws.send_packet { id := none, command := "social.presence", data := data.toJS } }

/-- The packets an operation `f` newly writes to the socket when run on
client state `c`: the suffix of the sent log past the packets already
sent. -/
def sentBy (f : Client → Client) (c : Client) : List Packet :=
  (f c).ws.sent.drop c.ws.sent.length

/-- Dropping the length of the left part of an appended list leaves the
right part. -/
theorem drop_length_append {α : Type} (l ps : List α) : (l ++ ps).drop l.length = ps := by
  induction l with
  | nil => simp
  | cons a t ih => simp [ih]

/-- A fixed client state already joined to room A, used as the concrete
input of several witnesses. -/
def clientInA : Client :=
  { handling := defaultHandling
    token := none
    room := { id := some "A" }
    ws := { messageID := 0, sent := [] } }

/-- C7: a Client constructed without an explicit handling argument has
handling configuration arr equal to the string 1, das equal to the
string 1, sdf equal to the string 5, and safelock true. -/
theorem client_default_handling :
    Client.new.handling = { arr := "1", das := "1", sdf := "5", safelock := true } := rfl

/-- C1: if the client is already joined to room A (room.id is some A),
then joinRoom B writes exactly two packets to the socket, a leaveroom
command followed by a joinroom command for B, in that order. -/
theorem joinRoom_supersedes (c : Client) (h : c.room.id = some "A") :
    (c.joinRoom "B").ws.sent =
      c.ws.sent ++
        [{ id := some c.ws.messageID, command := "leaveroom", data := .bool false },
         { id := some c.ws.messageID, command := "joinroom", data := .str "B" }] := by
  simp [Client.joinRoom, Client.leaveRoom, optStrTruthy, h, WebsocketManager.send]

/-- C1 witness: the theorem applied to the concrete client joined to
room A. -/
theorem joinRoom_supersedes_witness :
    clientInA.room.id = some "A" ∧
    (clientInA.joinRoom "B").ws.sent =
      clientInA.ws.sent ++
        [{ id := some clientInA.ws.messageID, command := "leaveroom", data := .bool false },
         { id := some clientInA.ws.messageID, command := "joinroom", data := .str "B" }] :=
  ⟨rfl, joinRoom_supersedes clientInA rfl⟩

/-- C2 counterexample: on a fresh client (room.id unset, no inbound
packet ever processed), joinRoom B sets room.id to B at once, so room.id
does not remain unchanged until a server acknowledgement. -/
theorem joinRoom_sets_id_immediately_cex :
    Client.new.room.id = none ∧
    (Client.new.joinRoom "B").room.id = some "B" ∧
    (Client.new.joinRoom "B").room.id ≠ Client.new.room.id :=
  ⟨rfl, rfl, by simp [Client.joinRoom, Client.new, optStrTruthy]⟩

/-- C2 amended: joinRoom sets room.id to the requested room id
synchronously, as the last step of the call itself, right after writing
the joinroom packet, without waiting for any server acknowledgement. -/
theorem joinRoom_sets_id (c : Client) (room : String) :
    (c.joinRoom room).room.id = some room := by
  cases hb : optStrTruthy c.room.id <;>
    simp [Client.joinRoom, Client.leaveRoom, hb]

/-- C3 counterexample: on a client joined to room A, leaveRoom clears
room.id at the time of the send itself (no inbound packet is processed),
so the clearing does not wait for the leaveroom acknowledgement. -/
theorem leaveRoom_clears_id_immediately_cex :
    clientInA.room.id = some "A" ∧
    clientInA.leaveRoom.room.id = none ∧
    clientInA.leaveRoom.ws.sent =
      [{ id := some 0, command := "leaveroom", data := .bool false }] :=
  ⟨rfl, rfl, rfl⟩

/-- C3 amended: leaveRoom writes one leaveroom packet and clears room.id
immediately and synchronously within the same call, not on a later
server acknowledgement. -/
theorem leaveRoom_sends_and_clears (c : Client) :
    (c.leaveRoom).ws.sent =
      c.ws.sent ++ [{ id := some c.ws.messageID, command := "leaveroom", data := .bool false }] ∧
    (c.leaveRoom).room.id = none := by
  constructor <;> simp [Client.leaveRoom, WebsocketManager.send]

/-- C4 counterexample: on a fresh client whose room.id is unset,
Room.message does not fail and writes a chat packet to the socket, so a
send is performed. -/
theorem room_message_not_guarded_cex :
    Client.new.room.id = none ∧
    (Room.message Client.new "hello").ws.sent =
      [{ id := some 0, command := "chat", data := .str "hello" }] :=
  ⟨rfl, rfl⟩

/-- C4 amended: Room.message always writes exactly one chat packet,
whatever room.id is (there is no NotInRoomError guard in the code), and
changes no other client state. -/
theorem room_message_always_sends (c : Client) (msg : String) :
    (Room.message c msg).ws.sent =
      c.ws.sent ++ [{ id := some c.ws.messageID, command := "chat", data := .str msg }] ∧
    (Room.message c msg).room = c.room ∧
    (Room.message c msg).handling = c.handling ∧
    (Room.message c msg).token = c.token := by
  refine ⟨?_, rfl, rfl, rfl⟩
  simp [Room.message, WebsocketManager.send]

/-- C10: leaveRoom is unguarded and idempotent on local room state: for
every client state, also when room.id is already unset, it writes
exactly one leaveroom packet and leaves room.id unset, and a second
consecutive call yields the same local state (room, handling, token) as
the first. -/
theorem leaveRoom_unguarded_idempotent (c : Client) :
    (c.leaveRoom).ws.sent =
      c.ws.sent ++ [{ id := some c.ws.messageID, command := "leaveroom", data := .bool false }] ∧
    (c.leaveRoom).room.id = none ∧
    (c.leaveRoom.leaveRoom).room = (c.leaveRoom).room ∧
    (c.leaveRoom.leaveRoom).handling = (c.leaveRoom).handling ∧
    (c.leaveRoom.leaveRoom).token = (c.leaveRoom).token := by
  refine ⟨?_, rfl, rfl, rfl, rfl⟩
  simp [Client.leaveRoom, WebsocketManager.send]

/-- Folding `on` over a registration list from any initial array appends
the registrations in order. -/
theorem ofRegs_go (regs : List (String × Nat)) (init : List EventEmitterEvent) :
    regs.foldl (fun evs r => EventEmitter.on evs r.1 r.2) init =
      init ++ regs.map fun r => { event := r.1, func := r.2 } := by
  induction regs generalizing init with
  | nil => simp
  | cons r t ih =>
    rw [List.foldl_cons, ih]
    simp [EventEmitter.on]

/-- The callbacks called by emit are the registrations filtered by event
name, in stored order, whatever the argument is. -/
theorem emit_map_fst (evs : List EventEmitterEvent) (event : String) (args : Option JSValue) :
    (EventEmitter.emit evs event args).map Prod.fst =
      (evs.filter fun x => x.event == event).map EventEmitterEvent.func := by
  cases args with
  | none => simp [EventEmitter.emit]
  | some a => cases h : a.truthy <;> simp [EventEmitter.emit, h]

/-- Filtering the mapped registrations by event name commutes with
filtering the registrations by name. -/
theorem filter_map_regs (regs : List (String × Nat)) (event : String) :
    ((regs.map fun r => ({ event := r.1, func := r.2 } : EventEmitterEvent)).filter
        fun x => x.event == event) =
      (regs.filter fun r => r.1 == event).map fun r => { event := r.1, func := r.2 } := by
  induction regs with
  | nil => rfl
  | cons r t ih => cases h : (r.1 == event) <;> simp [h, ih]

/-- C5: for every event name, every argument and every sequence of
registrations, emit calls exactly the callbacks registered for that
name, in registration order; a callback registered twice for the same
event appears twice in the call list. -/
theorem emit_calls_registered_in_order (regs : List (String × Nat)) (event : String)
    (args : Option JSValue) :
    (EventEmitter.emit (EventEmitter.ofRegs regs) event args).map Prod.fst =
      (regs.filter fun r => r.1 == event).map Prod.snd := by
  rw [EventEmitter.ofRegs, ofRegs_go, emit_map_fst]
  simp [filter_map_regs, List.map_map, Function.comp]

/-- C9: when emit is given a falsy argument (false, 0, the empty string,
null, undefined), every matching callback is called with no argument,
exactly as for an emit with no argument at all; the callbacks receive
the argument precisely when it is truthy. -/
theorem emit_falsy_vs_truthy (events : List EventEmitterEvent) (event : String) (a : JSValue) :
    (a.truthy = false →
      EventEmitter.emit events event (some a) = EventEmitter.emit events event none ∧
      ∀ call ∈ EventEmitter.emit events event (some a), call.2 = none) ∧
    (a.truthy = true →
      ∀ call ∈ EventEmitter.emit events event (some a), call.2 = some a) := by
  constructor
  · intro hf
    constructor
    · simp [EventEmitter.emit, hf]
    · intro call hc
      simp [EventEmitter.emit, hf] at hc
      obtain ⟨x, hx, hcall⟩ := hc
      simp [← hcall]
  · intro ht
    intro call hc
    simp [EventEmitter.emit, ht] at hc
    obtain ⟨x, hx, hcall⟩ := hc
    simp [← hcall]

/-- A fixed registration array used by the C9 witness. -/
def wEvents : List EventEmitterEvent :=
  [{ event := "message", func := 0 }, { event := "message", func := 1 },
   { event := "ready", func := 2 }]

/-- C9 witness: the theorem applied at the falsy value false and at the
truthy string hi on a concrete registration array. -/
theorem emit_falsy_vs_truthy_witness :
    (EventEmitter.emit wEvents "message" (some (.bool false)) =
      EventEmitter.emit wEvents "message" none) ∧
    ∀ call ∈ EventEmitter.emit wEvents "message" (some (.str "hi")), call.2 = some (.str "hi") :=
  ⟨((emit_falsy_vs_truthy wEvents "message" (.bool false)).1 rfl).1,
   (emit_falsy_vs_truthy wEvents "message" (.str "hi")).2 (by decide)⟩

/-- C6: every packet written for the commands joinroom, leaveroom, chat,
switchbracket, switchbrackethost and updateconfig carries the numeric
message id, and every packet written for social.presence, social.dm and
social.invite carries no id. Each conjunct lists the packets the
operation newly writes. -/
theorem outbound_id_policy (c : Client) (r msg mode muser duser dmsg iuser : String)
    (pres : Presence) (opts : List ConfigEntry) :
    sentBy (fun x => x.joinRoom r) c =
      (if optStrTruthy c.room.id then
        [{ id := some c.ws.messageID, command := "leaveroom", data := .bool false },
         { id := some c.ws.messageID, command := "joinroom", data := .str r }]
       else
        [{ id := some c.ws.messageID, command := "joinroom", data := .str r }]) ∧
    sentBy Client.leaveRoom c =
      [{ id := some c.ws.messageID, command := "leaveroom", data := .bool false }] ∧
    sentBy (fun x => Room.message x msg) c =
      [{ id := some c.ws.messageID, command := "chat", data := .str msg }] ∧
    sentBy (fun x => Room.selfMode x mode) c =
      [{ id := some c.ws.messageID, command := "switchbracket", data := .str mode }] ∧
    sentBy (fun x => Room.setMode x muser mode) c =
      [{ id := some c.ws.messageID, command := "switchbrackethost",
         data := .obj [("uid", .str muser), ("bracket", .str mode)] }] ∧
    sentBy (fun x => Room.setConfig x opts) c =
      [{ id := some c.ws.messageID, command := "updateconfig",
         data := .arr (opts.map fun o => .obj [("index", .str o.index), ("value", o.value)]) }] ∧
    sentBy (fun x => ClientUser.message x duser dmsg) c =
      [{ id := none, command := "social.dm",
         data := .obj [("recipient", .str duser), ("msg", .str dmsg)] }] ∧
    sentBy (fun x => ClientUser.setPresence x pres) c =
      [{ id := none, command := "social.presence", data := pres.toJS }] ∧
    sentBy (fun x => ClientUser.invite x iuser) c =
      [{ id := none, command := "social.invite", data := .str iuser }] := by
  refine ⟨?_, ?_, ?_, ?_, ?_, ?_, ?_, ?_, ?_⟩
  · cases h : optStrTruthy c.room.id <;>
      simp [sentBy, Client.joinRoom, Client.leaveRoom, h, WebsocketManager.send,
        List.append_assoc, drop_length_append]
  all_goals
    simp [sentBy, Client.leaveRoom, Room.message, Room.selfMode, Room.setMode,
      Room.setConfig, ClientUser.message, ClientUser.setPresence, ClientUser.invite,
      WebsocketManager.send, drop_length_append]

/-- C8: message, setPresence and invite write their social command packet
and leave all local state (handling, token, room) unchanged; likewise
the setPresence of the alternate ClientUser implementation. -/
theorem social_ops_frame (c : Client) (duser dmsg iuser : String) (pres : Presence)
    (u : ClientUserV2) :
    ((ClientUser.message c duser dmsg).handling = c.handling ∧
     (ClientUser.message c duser dmsg).token = c.token ∧
     (ClientUser.message c duser dmsg).room = c.room ∧
     (ClientUser.message c duser dmsg).ws.sent =
       c.ws.sent ++
         [{ id := none, command := "social.dm",
            data := .obj [("recipient", .str duser), ("msg", .str dmsg)] }]) ∧
    ((ClientUser.setPresence c pres).handling = c.handling ∧
     (ClientUser.setPresence c pres).token = c.token ∧
     (ClientUser.setPresence c pres).room = c.room ∧
     (ClientUser.setPresence c pres).ws.sent =
       c.ws.sent ++ [{ id := none, command := "social.presence", data := pres.toJS }]) ∧
    ((ClientUser.invite c iuser).handling = c.handling ∧
     (ClientUser.invite c iuser).token = c.token ∧
     (ClientUser.invite c iuser).room = c.room ∧
     (ClientUser.invite c iuser).ws.sent =
       c.ws.sent ++ [{ id := none, command := "social.invite", data := .str iuser }]) ∧
    ((ClientUserV2.setPresence u pres).handling = u.handling ∧
     (ClientUserV2.setPresence u pres).room = u.room ∧
     (ClientUserV2.setPresence u pres).ws.sent =
       u.ws.sent ++ [{ id := none, command := "social.presence", data := pres.toJS }]) := by
  refine ⟨⟨rfl, rfl, rfl, ?_⟩, ⟨rfl, rfl, rfl, ?_⟩, ⟨rfl, rfl, rfl, ?_⟩, rfl, rfl, ?_⟩ <;>
    simp [ClientUser.message, ClientUser.setPresence, ClientUser.invite,
      ClientUserV2.setPresence, WebsocketManager.send, WS2.send_packet]

end TetrJs
